import Mathlib

/-!
Shallow embedding of the todo-evolution repository: the Phase II web-app
backend (task service, JWT auth service, task routes) and the Phase I CLI
(validators and the `add` command), together with theorems settling the
spec claims about them.

The relational task table is embedded as a list of rows; the primary-key
uniqueness that the database enforces appears as a `Nodup` hypothesis on
the list of ids.  `datetime.utcnow()` is embedded as an explicit `now`
parameter, and the database-assigned primary key of a fresh row as an
explicit `newId` parameter.
-/

/-- Decidable equality for `Except`, used to evaluate validator outcomes on
concrete inputs. -/
instance {ε α : Type} [DecidableEq ε] [DecidableEq α] :
    DecidableEq (Except ε α) := fun a b =>
  match a, b with
  | .ok x, .ok y =>
    if h : x = y then .isTrue (by rw [h])
    else .isFalse (fun hc => h (Except.ok.inj hc))
  | .error x, .error y =>
    if h : x = y then .isTrue (by rw [h])
    else .isFalse (fun hc => h (Except.error.inj hc))
  | .ok _, .error _ => .isFalse (fun hc => Except.noConfusion hc)
  | .error _, .ok _ => .isFalse (fun hc => Except.noConfusion hc)

/-- Surrounding-whitespace removal on a character list: the embedding of
Python `str.strip()` (and of the whitespace tolerance of `int()`). -/
def stripWs (cs : List Char) : List Char :=
  ((cs.dropWhile Char.isWhitespace).reverse.dropWhile Char.isWhitespace).reverse

namespace TodoBackend

/-- Row of the `task` table, from `src/backend/src/models/task.py`
(`class Task`).  `created_at`/`updated_at` are UTC timestamps, embedded
as `Nat`.  The Phase V fields (`priority`, `tags`, `due_date`,
`recurrence_pattern`) are nullable and default to null. -/
structure Task where
  id : Int
  user_id : Int
  title : String
  description : Option String
  completed : Bool
  created_at : Nat
  updated_at : Nat
  priority : Option String := none
  tags : Option String := none
  due_date : Option Nat := none
  recurrence_pattern : Option String := none
deriving Repr, DecidableEq

/-- The task table: a list of rows. -/
abbrev Store := List Task

/-- The WHERE clause `Task.id == task_id, Task.user_id == user_id` used by
`get_task` in `src/backend/src/services/task_service.py`. -/
def taskMatches (user_id task_id : Int) (t : Task) : Bool :=
  t.id == task_id && t.user_id == user_id

/-- `get_task` from `src/backend/src/services/task_service.py`: select the
row whose id and owner both match, `None` otherwise
(`scalar_one_or_none`). -/
def get_task (store : Store) (user_id task_id : Int) : Option Task :=
  store.find? (taskMatches user_id task_id)

/-- `get_all_tasks` from `src/backend/src/services/task_service.py`:
`SELECT ... WHERE user_id = ?`. -/
def get_all_tasks (store : Store) (user_id : Int) : List Task :=
  store.filter (fun t => t.user_id == user_id)

/-- Committing a mutated row: the row with the given primary key is
replaced, every other row is untouched (`session.add` + `commit` on a row
loaded from the table). -/
def replaceById (store : Store) (task_id : Int) (t' : Task) : Store :=
  store.map (fun u => if u.id == task_id then t' else u)

/-- `create_task` from `src/backend/src/services/task_service.py`: insert a
fresh row with `completed=False`, both timestamps set to the current time
(the model defaults `default_factory=datetime.utcnow`), and the
database-assigned primary key `newId`. -/
def create_task (store : Store) (user_id : Int) (title : String)
    (description : Option String) (newId : Int) (now : Nat) : Task × Store :=
  let t : Task :=
    { id := newId, user_id := user_id, title := title,
      description := description, completed := false,
      created_at := now, updated_at := now }
  (t, store ++ [t])

/-- `update_task` from `src/backend/src/services/task_service.py`: look the
row up with the ownership filter; on a hit overwrite exactly the fields
whose argument is not `None`, stamp `updated_at`, and commit. -/
def update_task (store : Store) (user_id task_id : Int)
    (title : Option String) (description : Option String)
    (completed : Option Bool) (now : Nat) : Option Task × Store :=
  match get_task store user_id task_id with
  | none => (none, store)
  | some t =>
    let t' : Task :=
      { t with
        title := match title with | some s => s | none => t.title,
        description := match description with | some d => some d | none => t.description,
        completed := match completed with | some c => c | none => t.completed,
        updated_at := now }
    (some t', replaceById store task_id t')

/-- `toggle_task_completed` from `src/backend/src/services/task_service.py`:
look the row up with the ownership filter; on a hit negate `completed`,
stamp `updated_at`, and commit. -/
def toggle_task_completed (store : Store) (user_id task_id : Int)
    (now : Nat) : Option Task × Store :=
  match get_task store user_id task_id with
  | none => (none, store)
  | some t =>
    let t' : Task := { t with completed := !t.completed, updated_at := now }
    (some t', replaceById store task_id t')

/-- `delete_task` from `src/backend/src/services/task_service.py`: look the
row up with the ownership filter; on a hit delete that row and return
`True`, otherwise return `False`. -/
def delete_task (store : Store) (user_id task_id : Int) : Bool × Store :=
  match get_task store user_id task_id with
  | none => (false, store)
  | some t => (true, store.filter (fun u => !(u.id == t.id)))

/-- A concrete task row used to instantiate theorems: id 1, owned by
user 1. -/
def demoTask : Task :=
  { id := 1, user_id := 1, title := "T1", description := none,
    completed := false, created_at := 0, updated_at := 0 }

/-- Little-endian decimal digits of a natural number, each in `'0'..'9'`. -/
def toDecimalAux (n : Nat) : List Char :=
  if _h : n < 10 then [Char.ofNat (48 + n)]
  else Char.ofNat (48 + n % 10) :: toDecimalAux (n / 10)
termination_by n
decreasing_by exact Nat.div_lt_self (by omega) (by omega)

/-- Python `str` applied to an `int`: standard decimal notation with a
leading `'-'` for negative values. -/
def intToDecimal (i : Int) : String :=
  if i < 0 then ⟨'-' :: (toDecimalAux i.natAbs).reverse⟩
  else ⟨(toDecimalAux i.natAbs).reverse⟩

/-- Value of a non-empty all-digit character list, `None` otherwise. -/
def decDigits? (cs : List Char) : Option Nat :=
  if cs = [] then none
  else if cs.all Char.isDigit then
    some (cs.foldl (fun a c => 10 * a + (c.toNat - 48)) 0)
  else none

/-- Python built-in `int` applied to a `str` (the `int(user_id_str)` call in
`get_user_id_from_token`): surrounding whitespace is ignored, an optional
single `'+'` or `'-'` sign precedes a non-empty run of decimal digits, and
anything else raises `ValueError`, embedded as `None`.  (Pythonic
digit-grouping underscores are not modelled.) -/
def pyIntAux : List Char → Option Int
  | [] => none
  | c :: cs =>
    if c = '+' then (decDigits? cs).map Int.ofNat
    else if c = '-' then (decDigits? cs).map (fun n => -(n : Int))
    else (decDigits? (c :: cs)).map Int.ofNat

/-- The sign-and-digits stage of `pyInt?` applied after whitespace
stripping. -/
def pyInt? (s : String) : Option Int :=
  pyIntAux (stripWs s.toList)

/-- JWT claim set produced and consumed by
`src/backend/src/services/auth_service.py`: subject (`sub`), `email`, and
expiry `exp` (epoch seconds). -/
structure Payload where
  sub : Option String
  email : String
  exp : Nat
deriving Repr, DecidableEq

/-- A bearer token as the verifier sees it: either a well-formed JWT signed
with some secret, or a string that fails signature/format checking
altogether.  The signing primitive itself is out of scope; what the code
relies on is that `jwt.decode` yields the embedded payload exactly when
the signature matches the server secret and the token is not expired, and
raises `JWTError` otherwise. -/
inductive Token where
  | signed (payload : Payload) (secret : String)
  | malformed
deriving Repr, DecidableEq

/-- `JWT_EXPIRATION_DAYS = 7` from `auth_service.py`, in seconds. -/
def jwtExpirationSeconds : Nat := 7 * 86400

/-- `create_access_token` from `auth_service.py`: payload
`{sub: str(user_id), email: email, exp: now + 7 days}` signed with the
server secret. -/
def create_access_token (secret : String) (user_id : Int) (email : String)
    (now : Nat) : Token :=
  .signed
    { sub := some (intToDecimal user_id), email := email,
      exp := now + jwtExpirationSeconds }
    secret

/-- `decode_access_token` from `auth_service.py`: `jwt.decode` under the
server secret, `None` on any `JWTError` (bad signature, malformed input,
or expiry in the past). -/
def decode_access_token (serverSecret : String) (now : Nat) (t : Token) :
    Option Payload :=
  match t with
  | .malformed => none
  | .signed p s => if s = serverSecret ∧ now < p.exp then some p else none

/-- `get_user_id_from_token` from `auth_service.py`: decode, reject a
missing or empty (`if not user_id_str`) subject, then `int(user_id_str)`
with `ValueError` mapped to `None`. -/
def get_user_id_from_token (serverSecret : String) (now : Nat) (t : Token) :
    Option Int :=
  match decode_access_token serverSecret now t with
  | none => none
  | some payload =>
    match payload.sub with
    | none => none
    | some s => if s = "" then none else pyInt? s

/-- `get_current_user` from `src/backend/src/routes/tasks.py`: resolve the
bearer token to a user id or fail with HTTP 401. -/
def get_current_user (serverSecret : String) (now : Nat) (t : Token) :
    Except Nat Int :=
  match get_user_id_from_token serverSecret now t with
  | none => .error 401
  | some uid => .ok uid

/-- `verify_user_access` from `src/backend/src/routes/tasks.py`: the
authenticated user must equal the `{user_id}` path parameter or the
request fails with HTTP 403. -/
def verify_user_access (user_id : Int) (serverSecret : String) (now : Nat)
    (t : Token) : Except Nat Int :=
  match get_current_user serverSecret now t with
  | .error e => .error e
  | .ok current_user =>
    if current_user ≠ user_id then .error 403 else .ok current_user

/-- `GET /{user_id}/tasks` from `src/backend/src/routes/tasks.py`: each
endpoint result is the HTTP outcome paired with the table state after the
request. -/
def get_tasks_endpoint (serverSecret : String) (now : Nat) (store : Store)
    (token : Token) (path_user : Int) : Except Nat (List Task) × Store :=
  match verify_user_access path_user serverSecret now token with
  | .error e => (.error e, store)
  | .ok verified => (.ok (get_all_tasks store verified), store)

/-- `POST /{user_id}/tasks` from `src/backend/src/routes/tasks.py`. -/
def create_task_endpoint (serverSecret : String) (now : Nat) (store : Store)
    (token : Token) (path_user : Int) (title : String)
    (description : Option String) (newId : Int) :
    Except Nat Task × Store :=
  match verify_user_access path_user serverSecret now token with
  | .error e => (.error e, store)
  | .ok verified =>
    let r := create_task store verified title description newId now
    (.ok r.1, r.2)

/-- `GET /{user_id}/tasks/{task_id}` from `src/backend/src/routes/tasks.py`:
a miss of the owner-filtered lookup is HTTP 404. -/
def get_task_endpoint (serverSecret : String) (now : Nat) (store : Store)
    (token : Token) (path_user task_id : Int) : Except Nat Task × Store :=
  match verify_user_access path_user serverSecret now token with
  | .error e => (.error e, store)
  | .ok verified =>
    match get_task store verified task_id with
    | none => (.error 404, store)
    | some t => (.ok t, store)

/-- `PATCH /{user_id}/tasks/{task_id}` from `src/backend/src/routes/tasks.py`. -/
def update_task_endpoint (serverSecret : String) (now : Nat) (store : Store)
    (token : Token) (path_user task_id : Int) (title : Option String)
    (description : Option String) (completed : Option Bool) :
    Except Nat Task × Store :=
  match verify_user_access path_user serverSecret now token with
  | .error e => (.error e, store)
  | .ok verified =>
    let r := update_task store verified task_id title description completed now
    match r.1 with
    | none => (.error 404, r.2)
    | some t => (.ok t, r.2)

/-- `POST /{user_id}/tasks/{task_id}/toggle` from
`src/backend/src/routes/tasks.py`. -/
def toggle_task_endpoint (serverSecret : String) (now : Nat) (store : Store)
    (token : Token) (path_user task_id : Int) : Except Nat Task × Store :=
  match verify_user_access path_user serverSecret now token with
  | .error e => (.error e, store)
  | .ok verified =>
    let r := toggle_task_completed store verified task_id now
    match r.1 with
    | none => (.error 404, r.2)
    | some t => (.ok t, r.2)

/-- `DELETE /{user_id}/tasks/{task_id}` from
`src/backend/src/routes/tasks.py`: HTTP 204 on success, 404 otherwise. -/
def delete_task_endpoint (serverSecret : String) (now : Nat) (store : Store)
    (token : Token) (path_user task_id : Int) : Except Nat Unit × Store :=
  match verify_user_access path_user serverSecret now token with
  | .error e => (.error e, store)
  | .ok verified =>
    let r := delete_task store verified task_id
    if r.1 then (.ok (), r.2) else (.error 404, r.2)

end TodoBackend

namespace TodoCli

/-- `validate_title` from `src/src/lib/validators.py`: `ValueError` when the
title is empty (`not title or len(title) == 0`) or longer than 200
characters, the title itself otherwise. -/
def validate_title (title : String) : Except String String :=
  if title = "" ∨ title.length = 0 then .error "Title cannot be empty"
  else if title.length > 200 then .error "Title must be 1-200 characters"
  else .ok title

/-- `validate_user_id` from `src/src/lib/validators.py`: `ValueError` when
the user id is empty or whitespace-only (`not user_id or
user_id.strip() == ""`), the user id itself otherwise.  `strip()` is
embedded as `stripWs` on the character list. -/
def validate_user_id (user_id : String) : Except String String :=
  if user_id = "" ∨ stripWs user_id.toList = [] then
    .error "User ID cannot be empty"
  else .ok user_id

/-- Row of the Phase I task table, from `src/src/models/task.py`
(string-keyed owner). -/
structure CliTask where
  id : Int
  user_id : String
  title : String
  completed : Bool
  created_at : Nat
  updated_at : Nat
deriving Repr, DecidableEq

/-- Observable outcome of one run of the `add` command: the process exit
code, the task table afterwards, and whether `init_db`/a database session
was ever reached. -/
structure CliOutcome where
  exitCode : Nat
  store : List CliTask
  dbTouched : Bool
deriving Repr, DecidableEq

/-- The body of the `add` command from `src/src/cli/commands/add.py`:
validate the user id, then the title (a `ValueError` exits with code 1
before `init_db` or any session); then `init_db`, open a session, and
`TaskService.create_task` from `src/src/services/task_service.py`
(insert with `completed=False`, both timestamps now, fresh id `newId`).
`persistOk` is whether the database layer succeeds; on failure the
service rolls back and raises, the command prints the error and exits
with code 1. -/
def add (store : List CliTask) (user title : String) (persistOk : Bool)
    (newId : Int) (now : Nat) : CliOutcome :=
  match validate_user_id user with
  | .error _ => { exitCode := 1, store := store, dbTouched := false }
  | .ok _ =>
    match validate_title title with
    | .error _ => { exitCode := 1, store := store, dbTouched := false }
    | .ok _ =>
      if persistOk then
        { exitCode := 0,
          store := store ++
            [{ id := newId, user_id := user, title := title,
               completed := false, created_at := now, updated_at := now }],
          dbTouched := true }
      else { exitCode := 1, store := store, dbTouched := true }

/-- Modelled from the spec: the argument-parsing layer (the click
framework invoked by `src/src/cli/commands/add.py`, which declares
`--user` with `required=True` and a mandatory `TITLE` argument) is outside
the repository; per the spec's CLI contract a missing required option or
argument aborts with exit code 2 before the command body runs. -/
def add_cli (userArg titleArg : Option String) (store : List CliTask)
    (persistOk : Bool) (newId : Int) (now : Nat) : CliOutcome :=
  match userArg, titleArg with
  | some u, some t => add store u t persistOk newId now
  | _, _ => { exitCode := 2, store := store, dbTouched := false }

end TodoCli

namespace TodoBackend

/-- `find?` returns the designated element when it satisfies the predicate
and is the only member doing so. -/
theorem find?_eq_some_of_unique {α : Type} (p : α → Bool) :
    ∀ (l : List α) (a : α), a ∈ l → p a = true →
      (∀ b ∈ l, p b = true → b = a) → l.find? p = some a := by
  intro l
  induction l with
  | nil => intro a h; cases h
  | cons x xs ih =>
    intro a hmem hpa huniq
    by_cases hx : p x = true
    · rw [List.find?_cons_of_pos _ hx]
      exact congrArg some (huniq x (List.mem_cons_self x xs) hx)
    · rw [List.find?_cons_of_neg _ (by simpa using hx)]
      have hxs : a ∈ xs := by
        rcases List.mem_cons.mp hmem with h | h
        · exact absurd (h ▸ hpa) hx
        · exact h
      exact ih a hxs hpa (fun b hb hpb => huniq b (List.mem_cons_of_mem _ hb) hpb)

/-- With primary-key uniqueness, `get_task` called by the owner returns the
row itself. -/
theorem get_task_eq_some {store : Store} {t : Task} {uid : Int}
    (hnd : (store.map Task.id).Nodup) (hmem : t ∈ store)
    (huid : t.user_id = uid) :
    get_task store uid t.id = some t := by
  apply find?_eq_some_of_unique _ _ _ hmem
  · simp [taskMatches, huid]
  · intro b hb hpb
    have hid : b.id = t.id := by
      simp only [taskMatches, Bool.and_eq_true, beq_iff_eq] at hpb
      exact hpb.1
    exact List.inj_on_of_nodup_map hnd hb hmem hid

/-- With primary-key uniqueness, `get_task` authenticated as a non-owner
returns `None`. -/
theorem get_task_eq_none_of_cross {store : Store} {t : Task} {A B : Int}
    (hnd : (store.map Task.id).Nodup) (hmem : t ∈ store)
    (hA : t.user_id = A) (hAB : A ≠ B) :
    get_task store B t.id = none := by
  rw [get_task, List.find?_eq_none]
  intro u hu hpu
  simp only [taskMatches, Bool.and_eq_true, beq_iff_eq] at hpu
  have : u = t := List.inj_on_of_nodup_map hnd hu hmem hpu.1
  exact hAB (by rw [← hA, ← this, hpu.2])

/-- `get_task` returns `None` on a store holding no row with the given id. -/
theorem get_task_eq_none_of_absent {store : Store} {tid B : Int}
    (h : ∀ u ∈ store, u.id ≠ tid) :
    get_task store B tid = none := by
  rw [get_task, List.find?_eq_none]
  intro u hu hpu
  simp only [taskMatches, Bool.and_eq_true, beq_iff_eq] at hpu
  exact h u hu hpu.1

/-- Replacing a row by primary key preserves the column of ids. -/
theorem replaceById_map_id {store : Store} {tid : Int} {t' : Task}
    (h : t'.id = tid) :
    (replaceById store tid t').map Task.id = store.map Task.id := by
  unfold replaceById
  rw [List.map_map]
  apply List.map_congr_left
  intro u _
  by_cases hc : u.id = tid
  · simp [Function.comp, hc, h]
  · simp [Function.comp, hc]

/-- The replacement row is a member of the replaced store whenever some row
carried the key. -/
theorem mem_replaceById {store : Store} {tid : Int} {t t' : Task}
    (hmem : t ∈ store) (ht : t.id = tid) :
    t' ∈ replaceById store tid t' := by
  unfold replaceById
  exact List.mem_map.mpr ⟨t, hmem, by simp [ht]⟩

/-- After a replacement by key, the only row carrying that key is the
replacement row. -/
theorem eq_of_mem_replaceById {store : Store} {tid : Int} {t' : Task} :
    ∀ u ∈ replaceById store tid t', u.id = tid → u = t' := by
  intro u hu hid
  unfold replaceById at hu
  rcases List.mem_map.mp hu with ⟨v, hv, hvu⟩
  by_cases hc : v.id = tid
  · simpa [hc] using hvu.symm
  · rw [if_neg (by simpa using hc)] at hvu
    exact absurd (hvu ▸ hid) hc

/-- Looking a row up by key and owner after it was replaced (same key, same
owner) returns the replacement row. -/
theorem get_task_replaceById {store : Store} {t t' : Task} {uid : Int}
    (hmem : t ∈ store) (ht : t'.id = t.id) (huid : t'.user_id = uid) :
    get_task (replaceById store t.id t') uid t.id = some t' := by
  apply find?_eq_some_of_unique _ _ _ (mem_replaceById hmem rfl)
  · simp [taskMatches, ht, huid]
  · intro b hb hpb
    simp only [taskMatches, Bool.and_eq_true, beq_iff_eq] at hpb
    exact eq_of_mem_replaceById b hb hpb.1

/-- C1: for distinct users A ≠ B and a task t owned by A, the task-service
operations authenticated as B at t's id return exactly the not-found
outcome (`None`, or `False` for delete) that they return on a store
holding no row with that id at all, and they leave the store — in
particular t — unchanged. -/
theorem claim1_cross_user_indistinguishable (store : Store) (t : Task)
    (A B : Int) (tl ds : Option String) (cp : Option Bool) (now : Nat)
    (hnd : (store.map Task.id).Nodup) (hmem : t ∈ store)
    (hA : t.user_id = A) (hAB : A ≠ B) :
    get_task store B t.id = none ∧
    update_task store B t.id tl ds cp now = (none, store) ∧
    toggle_task_completed store B t.id now = (none, store) ∧
    delete_task store B t.id = (false, store) ∧
    get_task store B t.id
      = get_task (store.filter (fun u => !(u.id == t.id))) B t.id ∧
    (update_task store B t.id tl ds cp now).1
      = (update_task (store.filter (fun u => !(u.id == t.id)))
          B t.id tl ds cp now).1 ∧
    (toggle_task_completed store B t.id now).1
      = (toggle_task_completed (store.filter (fun u => !(u.id == t.id)))
          B t.id now).1 ∧
    (delete_task store B t.id).1
      = (delete_task (store.filter (fun u => !(u.id == t.id))) B t.id).1 := by
  have hget : get_task store B t.id = none :=
    get_task_eq_none_of_cross hnd hmem hA hAB
  have hget2 :
      get_task (store.filter (fun u => !(u.id == t.id))) B t.id = none := by
    apply get_task_eq_none_of_absent
    intro u hu
    have := List.of_mem_filter hu
    simpa using this
  refine ⟨hget, ?_, ?_, ?_, ?_, ?_, ?_, ?_⟩ <;>
    simp [update_task, toggle_task_completed, delete_task, hget, hget2]

/-- C1 witness at a concrete store: one task with id 1 owned by user 1,
accessed as user 2. -/
theorem claim1_witness :
    get_task [demoTask] 2 demoTask.id = none ∧
    update_task [demoTask] 2 demoTask.id none none none 5 = (none, [demoTask]) ∧
    toggle_task_completed [demoTask] 2 demoTask.id 5 = (none, [demoTask]) ∧
    delete_task [demoTask] 2 demoTask.id = (false, [demoTask]) ∧
    get_task [demoTask] 2 demoTask.id
      = get_task ([demoTask].filter (fun u => !(u.id == demoTask.id)))
          2 demoTask.id ∧
    (update_task [demoTask] 2 demoTask.id none none none 5).1
      = (update_task ([demoTask].filter (fun u => !(u.id == demoTask.id)))
          2 demoTask.id none none none 5).1 ∧
    (toggle_task_completed [demoTask] 2 demoTask.id 5).1
      = (toggle_task_completed
          ([demoTask].filter (fun u => !(u.id == demoTask.id)))
          2 demoTask.id 5).1 ∧
    (delete_task [demoTask] 2 demoTask.id).1
      = (delete_task ([demoTask].filter (fun u => !(u.id == demoTask.id)))
          2 demoTask.id).1 :=
  claim1_cross_user_indistinguishable [demoTask] demoTask 1 2 none none none 5
    (by decide) (by decide) (by decide) (by decide)

/-- C5: toggling a task twice restores its original completion flag, a
single toggle negates it, and each toggle stamps `updated_at` with the
current time, so runs at two distinct instants yield two distinct
modification timestamps. -/
theorem claim5_toggle_twice (store : Store) (t : Task) (uid : Int)
    (now1 now2 : Nat) (hnd : (store.map Task.id).Nodup) (hmem : t ∈ store)
    (huid : t.user_id = uid) (hne : now1 ≠ now2) :
    ∃ t1 s1 t2 s2,
      toggle_task_completed store uid t.id now1 = (some t1, s1) ∧
      toggle_task_completed s1 uid t.id now2 = (some t2, s2) ∧
      t1.completed = !t.completed ∧
      t2.completed = t.completed ∧
      t1.updated_at = now1 ∧
      t2.updated_at = now2 ∧
      t1.updated_at ≠ t2.updated_at := by
  have hget1 : get_task store uid t.id = some t := get_task_eq_some hnd hmem huid
  have hget2 :
      get_task (replaceById store t.id
          { t with completed := !t.completed, updated_at := now1 }) uid t.id
        = some { t with completed := !t.completed, updated_at := now1 } :=
    get_task_replaceById hmem rfl huid
  refine ⟨{ t with completed := !t.completed, updated_at := now1 },
    replaceById store t.id { t with completed := !t.completed, updated_at := now1 },
    { t with completed := !(!t.completed), updated_at := now2 },
    replaceById
      (replaceById store t.id
        { t with completed := !t.completed, updated_at := now1 }) t.id
      { t with completed := !(!t.completed), updated_at := now2 },
    ?_, ?_, rfl, ?_, rfl, rfl, hne⟩
  · simp [toggle_task_completed, hget1]
  · simp [toggle_task_completed, hget2]
  · simp

/-- C5 witness at a concrete store at instants 5 and 6. -/
theorem claim5_witness :
    ∃ t1 s1 t2 s2,
      toggle_task_completed [demoTask] 1 demoTask.id 5 = (some t1, s1) ∧
      toggle_task_completed s1 1 demoTask.id 6 = (some t2, s2) ∧
      t1.completed = !demoTask.completed ∧
      t2.completed = demoTask.completed ∧
      t1.updated_at = 5 ∧
      t2.updated_at = 6 ∧
      t1.updated_at ≠ t2.updated_at :=
  claim5_toggle_twice [demoTask] demoTask 1 5 6
    (by decide) (by decide) (by decide) (by decide)

/-- C7: creating a task and immediately fetching it by the returned id (as
the same user) yields exactly the created row, whose content fields are
the requested ones, with `completed = False`. -/
theorem claim7_create_roundtrip (store : Store) (uid : Int) (title : String)
    (desc : Option String) (newId : Int) (now : Nat)
    (hfresh : ∀ u ∈ store, u.id ≠ newId) :
    get_task (create_task store uid title desc newId now).2 uid newId
      = some (create_task store uid title desc newId now).1 ∧
    (create_task store uid title desc newId now).1.user_id = uid ∧
    (create_task store uid title desc newId now).1.title = title ∧
    (create_task store uid title desc newId now).1.description = desc ∧
    (create_task store uid title desc newId now).1.completed = false := by
  refine ⟨?_, rfl, rfl, rfl, rfl⟩
  have hnone : store.find? (taskMatches uid newId) = none := by
    rw [List.find?_eq_none]
    intro u hu hpu
    simp only [taskMatches, Bool.and_eq_true, beq_iff_eq] at hpu
    exact hfresh u hu hpu.1
  simp [create_task, get_task, List.find?_append, hnone, taskMatches]

/-- C7 witness: create into a store already holding a task with id 1,
using fresh id 2. -/
theorem claim7_witness :
    get_task (create_task [demoTask] 1 "write spec" (some "details") 2 9).2 1 2
      = some (create_task [demoTask] 1 "write spec" (some "details") 2 9).1 ∧
    (create_task [demoTask] 1 "write spec" (some "details") 2 9).1.user_id = 1 ∧
    (create_task [demoTask] 1 "write spec" (some "details") 2 9).1.title
      = "write spec" ∧
    (create_task [demoTask] 1 "write spec" (some "details") 2 9).1.description
      = some "details" ∧
    (create_task [demoTask] 1 "write spec" (some "details") 2 9).1.completed
      = false :=
  claim7_create_roundtrip [demoTask] 1 "write spec" (some "details") 2 9
    (by decide)

/-- C9: an update with title, description, and completed all `None` still
succeeds and returns the task with every content field and `created_at`
unchanged, but with `updated_at` stamped to the current time. -/
theorem claim9_noop_update_stamps_time (store : Store) (t : Task) (uid : Int)
    (now : Nat) (hnd : (store.map Task.id).Nodup) (hmem : t ∈ store)
    (huid : t.user_id = uid) :
    ∃ t', update_task store uid t.id none none none now
        = (some t', replaceById store t.id t') ∧
      t'.id = t.id ∧ t'.user_id = t.user_id ∧ t'.title = t.title ∧
      t'.description = t.description ∧ t'.completed = t.completed ∧
      t'.created_at = t.created_at ∧ t'.updated_at = now := by
  have hget : get_task store uid t.id = some t := get_task_eq_some hnd hmem huid
  exact ⟨{ t with updated_at := now },
    by simp [update_task, hget], rfl, rfl, rfl, rfl, rfl, rfl, rfl⟩

/-- C9 witness at a concrete store at instant 7. -/
theorem claim9_witness :
    ∃ t', update_task [demoTask] 1 demoTask.id none none none 7
        = (some t', replaceById [demoTask] demoTask.id t') ∧
      t'.id = demoTask.id ∧ t'.user_id = demoTask.user_id ∧
      t'.title = demoTask.title ∧ t'.description = demoTask.description ∧
      t'.completed = demoTask.completed ∧
      t'.created_at = demoTask.created_at ∧ t'.updated_at = 7 :=
  claim9_noop_update_stamps_time [demoTask] demoTask 1 7
    (by decide) (by decide) (by decide)

/-- A decimal digit character has the expected code point. -/
theorem digitChar_toNat {d : Nat} (h : d < 10) :
    (Char.ofNat (48 + d)).toNat = 48 + d := by
  interval_cases d <;> decide

/-- A decimal digit character satisfies `Char.isDigit`. -/
theorem digitChar_isDigit {d : Nat} (h : d < 10) :
    (Char.ofNat (48 + d)).isDigit = true := by
  interval_cases d <;> decide

/-- A decimal digit character is not whitespace. -/
theorem digitChar_not_ws {d : Nat} (h : d < 10) :
    (Char.ofNat (48 + d)).isWhitespace = false := by
  interval_cases d <;> decide

/-- A decimal digit character is not the plus sign. -/
theorem digitChar_ne_plus {d : Nat} (h : d < 10) :
    Char.ofNat (48 + d) ≠ '+' := by
  interval_cases d <;> decide

/-- A decimal digit character is not the minus sign. -/
theorem digitChar_ne_minus {d : Nat} (h : d < 10) :
    Char.ofNat (48 + d) ≠ '-' := by
  interval_cases d <;> decide

/-- Every character produced by `toDecimalAux` is a decimal digit
character. -/
theorem toDecimalAux_shape :
    ∀ n, ∀ c ∈ toDecimalAux n, ∃ d, d < 10 ∧ c = Char.ofNat (48 + d) := by
  intro n
  induction n using Nat.strong_induction_on with
  | _ n ih =>
    intro c hc
    rw [toDecimalAux] at hc
    split at hc
    · next h =>
      rw [List.mem_singleton] at hc
      exact ⟨n, h, hc⟩
    · next h =>
      rcases List.mem_cons.mp hc with hc | hc
      · exact ⟨n % 10, Nat.mod_lt _ (by omega), hc⟩
      · exact ih (n / 10) (Nat.div_lt_self (by omega) (by omega)) c hc

/-- `toDecimalAux` never produces the empty digit list. -/
theorem toDecimalAux_ne_nil (n : Nat) : toDecimalAux n ≠ [] := by
  rw [toDecimalAux]
  split <;> simp

/-- Reading the big-endian digit list of `toDecimalAux` back as a decimal
number recovers the input. -/
theorem toDecimalAux_val :
    ∀ n, ((toDecimalAux n).reverse).foldl
        (fun a c => 10 * a + (c.toNat - 48)) 0 = n := by
  intro n
  induction n using Nat.strong_induction_on with
  | _ n ih =>
    rw [toDecimalAux]
    split
    · next h =>
      simp only [List.reverse_cons, List.reverse_nil, List.nil_append,
        List.foldl_cons, List.foldl_nil]
      rw [digitChar_toNat h]
      omega
    · next h =>
      have h10 : n % 10 < 10 := Nat.mod_lt _ (by omega)
      rw [List.reverse_cons, List.foldl_append,
        ih (n / 10) (Nat.div_lt_self (by omega) (by omega))]
      simp only [List.foldl_cons, List.foldl_nil]
      rw [digitChar_toNat h10]
      omega

/-- `decDigits?` inverts `toDecimalAux`. -/
theorem decDigits?_toDecimalAux (n : Nat) :
    decDigits? ((toDecimalAux n).reverse) = some n := by
  have hne : ¬((toDecimalAux n).reverse = []) := by
    simpa using toDecimalAux_ne_nil n
  have hall : ((toDecimalAux n).reverse).all Char.isDigit = true := by
    rw [List.all_reverse, List.all_eq_true]
    intro c hc
    rcases toDecimalAux_shape n c hc with ⟨d, hd, rfl⟩
    exact digitChar_isDigit hd
  rw [decDigits?, if_neg hne, if_pos hall]
  exact congrArg some (toDecimalAux_val n)

/-- `dropWhile isWhitespace` is the identity on a list free of
whitespace. -/
theorem dropWhile_ws_eq_self {l : List Char}
    (h : ∀ c ∈ l, c.isWhitespace = false) :
    l.dropWhile Char.isWhitespace = l := by
  cases l with
  | nil => rfl
  | cons a as =>
    rw [List.dropWhile_cons]
    simp [h a (List.mem_cons_self a as)]

/-- `stripWs` is the identity on a list free of whitespace. -/
theorem stripWs_eq_self {cs : List Char}
    (h : ∀ c ∈ cs, c.isWhitespace = false) :
    stripWs cs = cs := by
  unfold stripWs
  rw [dropWhile_ws_eq_self h,
    dropWhile_ws_eq_self (fun c hc => h c (List.mem_reverse.mp hc)),
    List.reverse_reverse]

/-- The decimal rendering of an integer is a non-empty string. -/
theorem intToDecimal_toList_ne_nil (i : Int) : (intToDecimal i).toList ≠ [] := by
  unfold intToDecimal
  split
  · intro h
    exact List.noConfusion h
  · intro h
    have h' : (toDecimalAux i.natAbs).reverse = [] := h
    rw [List.reverse_eq_nil_iff] at h'
    exact toDecimalAux_ne_nil _ h'

/-- The decimal rendering of an integer is not the empty string. -/
theorem intToDecimal_ne_empty (i : Int) : intToDecimal i ≠ "" := by
  intro h
  exact intToDecimal_toList_ne_nil i (by rw [h]; rfl)

/-- Evaluation of the sign-and-digits stage on a non-empty list. -/
theorem pyIntAux_cons (c : Char) (cs : List Char) :
    pyIntAux (c :: cs) =
      if c = '+' then (decDigits? cs).map Int.ofNat
      else if c = '-' then (decDigits? cs).map (fun n => -(n : Int))
      else (decDigits? (c :: cs)).map Int.ofNat := rfl

/-- Python `int` inverts Python `str` on integers: parsing the decimal
rendering recovers the integer. -/
theorem pyInt?_intToDecimal (i : Int) : pyInt? (intToDecimal i) = some i := by
  by_cases hneg : i < 0
  · have hlist : (intToDecimal i).toList
        = '-' :: (toDecimalAux i.natAbs).reverse := by
      unfold intToDecimal
      rw [if_pos hneg]
      rfl
    have hnws :
        ∀ c ∈ '-' :: (toDecimalAux i.natAbs).reverse,
          c.isWhitespace = false := by
      intro c hc
      rcases List.mem_cons.mp hc with rfl | hc
      · decide
      · rcases toDecimalAux_shape _ c (List.mem_reverse.mp hc) with ⟨d, hd, rfl⟩
        exact digitChar_not_ws hd
    unfold pyInt?
    rw [hlist, stripWs_eq_self hnws, pyIntAux_cons,
      if_neg (by decide : ¬('-' : Char) = '+'), if_pos rfl,
      decDigits?_toDecimalAux]
    show some (-(i.natAbs : Int)) = some i
    rw [Option.some.injEq]
    omega
  · have hne := toDecimalAux_ne_nil i.natAbs
    obtain ⟨c, cs, hcons⟩ :
        ∃ c cs, (toDecimalAux i.natAbs).reverse = c :: cs := by
      cases h : (toDecimalAux i.natAbs).reverse with
      | nil => exact absurd (List.reverse_eq_nil_iff.mp h) hne
      | cons c cs => exact ⟨c, cs, rfl⟩
    have hcmem : c ∈ toDecimalAux i.natAbs :=
      List.mem_reverse.mp (hcons ▸ List.mem_cons_self c cs)
    rcases toDecimalAux_shape _ c hcmem with ⟨d, hd, rfl⟩
    have hlist : (intToDecimal i).toList = (toDecimalAux i.natAbs).reverse := by
      unfold intToDecimal
      rw [if_neg hneg]
      rfl
    have hnws :
        ∀ x ∈ (toDecimalAux i.natAbs).reverse, x.isWhitespace = false := by
      intro x hx
      rcases toDecimalAux_shape _ x (List.mem_reverse.mp hx) with ⟨e, he, rfl⟩
      exact digitChar_not_ws he
    unfold pyInt?
    rw [hlist, stripWs_eq_self hnws, hcons, pyIntAux_cons,
      if_neg (digitChar_ne_plus hd), if_neg (digitChar_ne_minus hd),
      ← hcons, decDigits?_toDecimalAux]
    show some ((i.natAbs : Int)) = some i
    rw [Option.some.injEq]
    omega

/-- Evaluation of `get_user_id_from_token` on a well-formed token. -/
theorem get_user_id_signed (serverSecret : String) (now : Nat) (p : Payload)
    (s : String) :
    get_user_id_from_token serverSecret now (Token.signed p s)
      = if s = serverSecret ∧ now < p.exp then
          match p.sub with
          | none => none
          | some str => if str = "" then none else pyInt? str
        else none := by
  simp only [get_user_id_from_token, decode_access_token]
  by_cases hc : s = serverSecret ∧ now < p.exp
  · rw [if_pos hc, if_pos hc]
  · rw [if_neg hc, if_neg hc]

/-- A token issued by `create_access_token`, decoded under the issuing
secret before its expiry, yields exactly the issued subject. -/
theorem get_user_id_create (secret : String) (X : Int) (email : String)
    (issued now : Nat) (h : now < issued + jwtExpirationSeconds) :
    get_user_id_from_token secret now (create_access_token secret X email issued)
      = some X := by
  simp only [create_access_token]
  rw [get_user_id_signed,
    if_pos (show secret = secret ∧ now < issued + jwtExpirationSeconds
      from ⟨rfl, h⟩)]
  show (if intToDecimal X = "" then none else pyInt? (intToDecimal X)) = some X
  rw [if_neg (intToDecimal_ne_empty X)]
  exact pyInt?_intToDecimal X

/-- C3: a credential issued for user X decodes (under the issuing secret,
before expiry) to exactly X, and under any verifying secret and instant it
decodes to X or to nothing — never to another identifier. -/
theorem claim3_token_subject_roundtrip (secret : String) (X : Int)
    (email : String) (issued now : Nat)
    (hexp : now < issued + jwtExpirationSeconds) :
    get_user_id_from_token secret now (create_access_token secret X email issued)
      = some X ∧
    ∀ (secret' : String) (now' : Nat),
      get_user_id_from_token secret' now'
          (create_access_token secret X email issued) = none ∨
      get_user_id_from_token secret' now'
          (create_access_token secret X email issued) = some X := by
  refine ⟨get_user_id_create secret X email issued now hexp, ?_⟩
  intro secret' now'
  by_cases hc : secret' = secret ∧ now' < issued + jwtExpirationSeconds
  · exact Or.inr (hc.1 ▸ get_user_id_create secret X email issued now' hc.2)
  · refine Or.inl ?_
    simp only [create_access_token]
    rw [get_user_id_signed,
      if_neg (show ¬(secret = secret' ∧ now' < issued + jwtExpirationSeconds)
        from fun hand => hc ⟨hand.1.symm, hand.2⟩)]

/-- C3 witness: user 42, issued at time 0, decoded at time 3. -/
theorem claim3_witness :
    get_user_id_from_token "k" 3 (create_access_token "k" 42 "a@b" 0)
      = some 42 ∧
    (get_user_id_from_token "other" 3 (create_access_token "k" 42 "a@b" 0)
        = none ∨
      get_user_id_from_token "other" 3 (create_access_token "k" 42 "a@b" 0)
        = some 42) := by
  have h := claim3_token_subject_roundtrip "k" 42 "a@b" 0 3 (by decide)
  exact ⟨h.1, h.2 "other" 3⟩

/-- C4: a malformed token, a token signed with a different secret, an
expired token, a token without a subject, and a token whose subject is not
a decimal integer all make `get_user_id_from_token` return `None`, and
`get_current_user` then rejects with HTTP 401. -/
theorem claim4_invalid_token_unauthorized (secret : String) (now : Nat) :
    get_user_id_from_token secret now .malformed = none ∧
    (∀ (p : Payload) (s : String), s ≠ secret →
      get_user_id_from_token secret now (.signed p s) = none) ∧
    (∀ (p : Payload) (s : String), p.exp ≤ now →
      get_user_id_from_token secret now (.signed p s) = none) ∧
    (∀ (email : String) (e : Nat),
      get_user_id_from_token secret now
        (.signed { sub := none, email := email, exp := e } secret) = none) ∧
    (∀ (sub email : String) (e : Nat), pyInt? sub = none →
      get_user_id_from_token secret now
        (.signed { sub := some sub, email := email, exp := e } secret)
          = none) ∧
    (∀ t, get_user_id_from_token secret now t = none →
      get_current_user secret now t = .error 401) := by
  refine ⟨rfl, ?_, ?_, ?_, ?_, ?_⟩
  · intro p s hs
    rw [get_user_id_signed,
      if_neg (show ¬(s = secret ∧ now < p.exp) from fun hand => hs hand.1)]
  · intro p s hexp
    rw [get_user_id_signed,
      if_neg (show ¬(s = secret ∧ now < p.exp)
        from fun hand => absurd hand.2 (by omega))]
  · intro email e
    rw [get_user_id_signed]
    by_cases hc : secret = secret ∧ now < e
    · rw [if_pos hc]
    · rw [if_neg hc]
  · intro sub email e hp
    rw [get_user_id_signed]
    by_cases hc : secret = secret ∧ now < e
    · rw [if_pos hc]
      show (if sub = "" then none else pyInt? sub) = none
      split
      · rfl
      · exact hp
    · rw [if_neg hc]
  · intro t ht
    simp only [get_current_user]
    rw [ht]

/-- C4 witness: one concrete token of each failure shape, decoded with
secret "k" at instant 100. -/
theorem claim4_witness :
    get_user_id_from_token "k" 100 .malformed = none ∧
    get_user_id_from_token "k" 100
      (.signed { sub := some "1", email := "e", exp := 500 } "other") = none ∧
    get_user_id_from_token "k" 100
      (.signed { sub := some "1", email := "e", exp := 100 } "k") = none ∧
    get_user_id_from_token "k" 100
      (.signed { sub := none, email := "e", exp := 500 } "k") = none ∧
    get_user_id_from_token "k" 100
      (.signed { sub := some "abc", email := "e", exp := 500 } "k") = none ∧
    get_current_user "k" 100 .malformed = .error 401 := by
  have h := claim4_invalid_token_unauthorized "k" 100
  exact ⟨h.1,
    h.2.1 { sub := some "1", email := "e", exp := 500 } "other" (by decide),
    h.2.2.1 { sub := some "1", email := "e", exp := 100 } "k" (by decide),
    h.2.2.2.1 "e" 500,
    h.2.2.2.2.1 "abc" "e" 500 (by decide),
    h.2.2.2.2.2 .malformed h.1⟩

/-- C2: a valid token whose decoded subject differs from the `{user_id}`
path parameter makes every task endpoint fail with HTTP 403 and leaves the
task table unchanged. -/
theorem claim2_mismatched_subject_forbidden (secret : String) (now : Nat)
    (store : Store) (token : Token) (path_user task_id newId : Int)
    (title : String) (desc tl ds : Option String) (cp : Option Bool)
    (uid : Int)
    (hdec : get_user_id_from_token secret now token = some uid)
    (hne : uid ≠ path_user) :
    get_tasks_endpoint secret now store token path_user
      = (.error 403, store) ∧
    create_task_endpoint secret now store token path_user title desc newId
      = (.error 403, store) ∧
    get_task_endpoint secret now store token path_user task_id
      = (.error 403, store) ∧
    update_task_endpoint secret now store token path_user task_id tl ds cp
      = (.error 403, store) ∧
    toggle_task_endpoint secret now store token path_user task_id
      = (.error 403, store) ∧
    delete_task_endpoint secret now store token path_user task_id
      = (.error 403, store) := by
  have hv : verify_user_access path_user secret now token = .error 403 := by
    simp only [verify_user_access, get_current_user]
    rw [hdec]
    show (if uid ≠ path_user then Except.error 403 else Except.ok uid)
      = Except.error 403
    rw [if_pos hne]
  refine ⟨?_, ?_, ?_, ?_, ?_, ?_⟩ <;>
    simp only [get_tasks_endpoint, create_task_endpoint, get_task_endpoint,
      update_task_endpoint, toggle_task_endpoint, delete_task_endpoint, hv]

/-- C2 witness: a token for user 1 used against the path of user 2, on a
store holding one task. -/
theorem claim2_witness :
    get_tasks_endpoint "k" 0 [demoTask] (create_access_token "k" 1 "e" 0) 2
      = (.error 403, [demoTask]) ∧
    create_task_endpoint "k" 0 [demoTask] (create_access_token "k" 1 "e" 0)
        2 "t" none 2
      = (.error 403, [demoTask]) ∧
    get_task_endpoint "k" 0 [demoTask] (create_access_token "k" 1 "e" 0) 2 1
      = (.error 403, [demoTask]) ∧
    update_task_endpoint "k" 0 [demoTask] (create_access_token "k" 1 "e" 0)
        2 1 none none none
      = (.error 403, [demoTask]) ∧
    toggle_task_endpoint "k" 0 [demoTask] (create_access_token "k" 1 "e" 0) 2 1
      = (.error 403, [demoTask]) ∧
    delete_task_endpoint "k" 0 [demoTask] (create_access_token "k" 1 "e" 0) 2 1
      = (.error 403, [demoTask]) :=
  claim2_mismatched_subject_forbidden "k" 0 [demoTask]
    (create_access_token "k" 1 "e" 0) 2 1 2 "t" none none none none 1
    (get_user_id_create "k" 1 "e" 0 0 (by decide)) (by decide)

end TodoBackend

namespace TodoCli

/-- `validate_user_id` either returns its argument or the empty-user
error. -/
theorem validate_user_id_cases (u : String) :
    validate_user_id u = .ok u ∨
      validate_user_id u = .error "User ID cannot be empty" := by
  unfold validate_user_id
  split
  · exact Or.inr rfl
  · exact Or.inl rfl

/-- `validate_title` either returns its argument or one of its two
errors. -/
theorem validate_title_cases (t : String) :
    validate_title t = .ok t ∨
      validate_title t = .error "Title cannot be empty" ∨
      validate_title t = .error "Title must be 1-200 characters" := by
  unfold validate_title
  split
  · exact Or.inr (Or.inl rfl)
  · split
    · exact Or.inr (Or.inr rfl)
    · exact Or.inl rfl

/-- Evaluation of the `add` command body when both validators succeed. -/
theorem add_eval_ok {u ttl : String} (store : List CliTask)
    (persistOk : Bool) (newId : Int) (now : Nat)
    (hu : validate_user_id u = .ok u) (ht : validate_title ttl = .ok ttl) :
    add store u ttl persistOk newId now =
      if persistOk then
        { exitCode := 0,
          store := store ++
            [{ id := newId, user_id := u, title := ttl, completed := false,
               created_at := now, updated_at := now }],
          dbTouched := true }
      else { exitCode := 1, store := store, dbTouched := true } := by
  unfold add
  rw [hu, ht]

/-- Evaluation of the `add` command body when the user id fails
validation. -/
theorem add_eval_err_user {u msg : String} (store : List CliTask)
    (ttl : String) (persistOk : Bool) (newId : Int) (now : Nat)
    (hu : validate_user_id u = .error msg) :
    add store u ttl persistOk newId now
      = { exitCode := 1, store := store, dbTouched := false } := by
  unfold add
  rw [hu]

/-- Evaluation of the `add` command body when the title fails
validation. -/
theorem add_eval_err_title {u ttl msg : String} (store : List CliTask)
    (persistOk : Bool) (newId : Int) (now : Nat)
    (hu : validate_user_id u = .ok u)
    (ht : validate_title ttl = .error msg) :
    add store u ttl persistOk newId now
      = { exitCode := 1, store := store, dbTouched := false } := by
  unfold add
  rw [hu, ht]

/-- C6: title validation accepts exactly lengths 1 through 200, and
rejects length 0 and every length above 200 with the corresponding
error. -/
theorem claim6_title_length_interval (s : String) :
    (validate_title s = .ok s ↔ 1 ≤ s.length ∧ s.length ≤ 200) ∧
    (s.length = 0 → validate_title s = .error "Title cannot be empty") ∧
    (200 < s.length →
      validate_title s = .error "Title must be 1-200 characters") := by
  have hempty : (s = "" ∨ s.length = 0) → s.length = 0 := by
    rintro (rfl | h)
    · rfl
    · exact h
  unfold validate_title
  refine ⟨⟨?_, ?_⟩, ?_, ?_⟩
  · intro hok
    by_cases h1 : s = "" ∨ s.length = 0
    · rw [if_pos h1] at hok
      cases hok
    · rw [if_neg h1] at hok
      by_cases h2 : s.length > 200
      · rw [if_pos h2] at hok
        cases hok
      · have h0 : s.length ≠ 0 := fun hz => h1 (Or.inr hz)
        omega
  · rintro ⟨ha, hb⟩
    have h1 : ¬(s = "" ∨ s.length = 0) := fun h => by
      have := hempty h
      omega
    rw [if_neg h1, if_neg (by omega : ¬s.length > 200)]
  · intro h0
    rw [if_pos (Or.inr h0)]
  · intro hgt
    have h1 : ¬(s = "" ∨ s.length = 0) := fun h => by
      have := hempty h
      omega
    rw [if_neg h1, if_pos hgt]

/-- C6 witness: length 1 is accepted, length 0 is rejected. -/
theorem claim6_witness :
    validate_title "a" = .ok "a" ∧
    validate_title "" = .error "Title cannot be empty" :=
  ⟨(claim6_title_length_interval "a").1.mpr (by decide),
    (claim6_title_length_interval "").2.1 (by decide)⟩

/-- C8: with both arguments present, the `add` command exits 0 exactly
when both validators succeed and the database layer persists the task;
it exits 1 on any validation failure, and also on a persistence failure
after successful validation; with a missing `--user` option or a missing
TITLE argument it exits 2. -/
theorem claim8_cli_exit_codes (store : List CliTask) (persistOk : Bool)
    (newId : Int) (now : Nat) (u ttl : String) :
    ((add_cli (some u) (some ttl) store persistOk newId now).exitCode = 0 ↔
      validate_user_id u = .ok u ∧ validate_title ttl = .ok ttl ∧
        persistOk = true) ∧
    (¬(validate_user_id u = .ok u ∧ validate_title ttl = .ok ttl) →
      (add_cli (some u) (some ttl) store persistOk newId now).exitCode = 1) ∧
    (validate_user_id u = .ok u → validate_title ttl = .ok ttl →
      persistOk = false →
      (add_cli (some u) (some ttl) store persistOk newId now).exitCode = 1) ∧
    (∀ titleArg,
      (add_cli none titleArg store persistOk newId now).exitCode = 2) ∧
    (∀ userArg,
      (add_cli userArg none store persistOk newId now).exitCode = 2) := by
  refine ⟨?_, ?_, ?_, ?_, ?_⟩
  · rcases validate_user_id_cases u with hu | hu
    · rcases validate_title_cases ttl with ht | ht | ht
      · simp only [add_cli]
        rw [add_eval_ok store persistOk newId now hu ht]
        cases persistOk
        · simp [hu, ht]
        · simp [hu, ht]
      · simp only [add_cli]
        rw [add_eval_err_title store persistOk newId now hu ht]
        simp [ht]
      · simp only [add_cli]
        rw [add_eval_err_title store persistOk newId now hu ht]
        simp [ht]
    · simp only [add_cli]
      rw [add_eval_err_user store ttl persistOk newId now hu]
      simp [hu]
  · intro hne
    rcases validate_user_id_cases u with hu | hu
    · rcases validate_title_cases ttl with ht | ht | ht
      · exact absurd ⟨hu, ht⟩ hne
      · simp only [add_cli]
        rw [add_eval_err_title store persistOk newId now hu ht]
      · simp only [add_cli]
        rw [add_eval_err_title store persistOk newId now hu ht]
    · simp only [add_cli]
      rw [add_eval_err_user store ttl persistOk newId now hu]
  · intro hu ht hpf
    subst hpf
    simp only [add_cli]
    rw [add_eval_ok store false newId now hu ht]
    rfl
  · intro titleArg
    cases titleArg <;> rfl
  · intro userArg
    cases userArg <;> rfl

/-- C8 witness: a successful run, an empty user id, and a missing user
option. -/
theorem claim8_witness :
    (add_cli (some "alice") (some "task") [] true 1 0).exitCode = 0 ∧
    (add_cli (some "") (some "task") [] true 1 0).exitCode = 1 ∧
    (add_cli none (some "task") [] true 1 0).exitCode = 2 :=
  ⟨(claim8_cli_exit_codes [] true 1 0 "alice" "task").1.mpr
      ⟨by decide, by decide, rfl⟩,
    (claim8_cli_exit_codes [] true 1 0 "" "task").2.1 (by decide),
    (claim8_cli_exit_codes [] true 1 0 "alice" "task").2.2.2.1 (some "task")⟩

/-- C10: when either validator fails, the `add` command exits 1 without
`init_db` or any database session having been reached, and the task table
is untouched. -/
theorem claim10_validation_failure_leaves_store (store : List CliTask)
    (u ttl : String) (persistOk : Bool) (newId : Int) (now : Nat)
    (h : ¬(validate_user_id u = .ok u ∧ validate_title ttl = .ok ttl)) :
    add store u ttl persistOk newId now
      = { exitCode := 1, store := store, dbTouched := false } := by
  rcases validate_user_id_cases u with hu | hu
  · rcases validate_title_cases ttl with ht | ht | ht
    · exact absurd ⟨hu, ht⟩ h
    · exact add_eval_err_title store persistOk newId now hu ht
    · exact add_eval_err_title store persistOk newId now hu ht
  · exact add_eval_err_user store ttl persistOk newId now hu

/-- C10 witness: an empty title on a singleton argument set. -/
theorem claim10_witness :
    add [] "bob" "" true 3 0
      = { exitCode := 1, store := [], dbTouched := false } :=
  claim10_validation_failure_leaves_store [] "bob" "" true 3 0 (by decide)

end TodoCli
